import Mathlib

/-!
Verification of the WWMI VG Fixer Blender add-on (v1.0.0 and v1.1.0).

The add-on's only non-trivial logic renames vertex groups of selected mesh
objects from a JSON metadata description.  We embed that logic shallowly:
Python strings become `List Char`, Python `int(...)` parsing, `str(...)`
rendering, `str.startswith` and the two anchored regular expressions used by
the add-on become explicit Lean functions, and both versions' `execute`
methods become pure functions from an abstracted metadata-loading outcome and
the list of selected objects to a run outcome.  Host-runtime behaviour the
sources never inspect (Blender's UI, undo stack, and its renaming of a group
to a suffixed name on a collision, which the repository documents as an
unchecked limitation) is out of scope.
-/

/-- Python strings, embedded as lists of characters. -/
abbrev PyStr := List Char

/-- The characters Python's `int(...)` strips from both ends of its argument
(the ASCII whitespace characters; `int` also strips rarer Unicode whitespace,
never relevant here since no other character of these programs is involved). -/
def isPySpace (c : Char) : Bool :=
  c == ' ' || c == '\t' || c == '\n' || c == '\r' || c == '\x0b' || c == '\x0c'

/-- Python `s.startswith(p)`: `p` is a prefix of `s`. -/
def pyStartswith : PyStr → PyStr → Bool
  | [], _ => true
  | _ :: _, [] => false
  | p :: ps, c :: cs => p == c && pyStartswith ps cs

/-- Strip trailing Python whitespace. -/
def rstripPy (cs : PyStr) : PyStr :=
  (cs.reverse.dropWhile isPySpace).reverse

/-- Strip leading and trailing Python whitespace, as `int(...)` does. -/
def stripPy (cs : PyStr) : PyStr :=
  rstripPy (cs.dropWhile isPySpace)

/-- Numeric value of a pure digit string, most significant digit first. -/
def digitsNatVal (ds : PyStr) : Nat :=
  ds.foldl (fun a c => 10 * a + (c.toNat - 48)) 0

/-- After the first digit, Python's integer grammar allows digits with single
underscores that must sit between two digits: `digit (underscore? digit)*`. -/
def digitsTail : PyStr → Bool
  | [] => true
  | '_' :: [] => false
  | '_' :: d :: cs => d.isDigit && digitsTail cs
  | c :: cs => c.isDigit && digitsTail cs

/-- A non-empty digit sequence in Python's `int` grammar (underscores only
between digits). -/
def pyDigitsOk : PyStr → Bool
  | [] => false
  | c :: cs => c.isDigit && digitsTail cs

/-- Value of a digit sequence once its underscores are removed. -/
def pyDigitsVal (ds : PyStr) : Int :=
  Int.ofNat (digitsNatVal (ds.filter (fun c => decide (c ≠ '_'))))

/-- Python `int(name)` on a string in base 10: strip whitespace, optional
sign, then a non-empty digit sequence; `none` models the `ValueError` the
add-on catches. -/
def pyParseInt (cs : PyStr) : Option Int :=
  match stripPy cs with
  | [] => none
  | c :: ds =>
    if c = '+' then (if pyDigitsOk ds then some (pyDigitsVal ds) else none)
    else if c = '-' then (if pyDigitsOk ds then some (-(pyDigitsVal ds)) else none)
    else if pyDigitsOk (c :: ds) then some (pyDigitsVal (c :: ds)) else none

/-- Python `str(n)` for an integer: minimal decimal digits, with a leading
minus sign when negative. -/
def pyIntStr (n : Int) : PyStr :=
  if n < 0 then '-' :: Nat.toDigits 10 n.natAbs else Nat.toDigits 10 n.toNat

/-- The literal marker string `"Check"`. -/
def checkLit : PyStr := "Check".data

/-- The literal `"Component"` of the component-id pattern. -/
def componentLit : PyStr := "Component".data

/-- One weighted membership of a vertex in a vertex group (`g` in
`v.groups`): the code reads only `g.group`; the weight is carried but never
inspected, so any rational stands in for the host's float. -/
structure VGEntry where
  group : Nat
  weight : Rat
deriving DecidableEq

/-- One vertex of `obj.data.vertices`, with its group memberships. -/
structure Vertex where
  groups : List VGEntry
deriving DecidableEq

/-- One entry of `obj.vertex_groups`: a name and the host-assigned index the
membership entries refer to. -/
structure VGroup where
  index : Nat
  name : PyStr
deriving DecidableEq

/-- A selected object: its type string, display name, vertex groups and mesh
vertices. -/
structure MeshObj where
  obj_type : PyStr
  name : PyStr
  vertex_groups : List VGroup
  vertices : List Vertex
deriving DecidableEq

/-- One entry of the metadata's `components` array.  `vg_map` is the JSON
mapping from string keys to integer vertex-group indices; `none` models a
component object without a `"vg_map"` key (v1.0.0 uses `comp.get("vg_map", {})`,
v1.1.0's `comp["vg_map"]` raises `KeyError` on it). -/
structure Component where
  vg_map : Option (List (PyStr × Int))
deriving DecidableEq

instance : Inhabited Component := ⟨⟨none⟩⟩

instance {e a : Type} [DecidableEq e] [DecidableEq a] : DecidableEq (Except e a) :=
  fun x y =>
    match x, y with
    | .error u, .error v =>
      if h : u = v then isTrue (by rw [h]) else
        isFalse (by intro hc; injection hc; contradiction)
    | .ok u, .ok v =>
      if h : u = v then isTrue (by rw [h]) else
        isFalse (by intro hc; injection hc; contradiction)
    | .error _, .ok _ => isFalse (fun hc => Except.noConfusion hc)
    | .ok _, .error _ => isFalse (fun hc => Except.noConfusion hc)

/-- The values list of a component's `vg_map` (Python `vg_map.values()`;
an absent map contributes the default `{}` of v1.0.0's `comp.get`). -/
def vgMapValues (c : Component) : List Int :=
  (c.vg_map.getD []).map Prod.snd

/-- The outcome of the metadata-loading stage, abstracting the filesystem and
the JSON parser: the path property is empty, `os.path.isfile` is false,
`json.load` raises, or a parsed document whose `components` key is absent
(`none`) or holds a components list. -/
inductive MetadataInput where
  | pathNotSet
  | fileMissing
  | badJson
  | doc (components : Option (List Component))
deriving DecidableEq

/-- How one `execute` call ends: `cancelled` models `return {"CANCELLED"}`
after `self.report({"ERROR"}, msg)`, `exception` an uncaught Python exception
(v1.1.0 leaves `json.load`, `max` and the object loop outside any `try`), and
`finished` `return {"FINISHED"}` with the reported object count.  Each carries
the final state of the selected objects. -/
inductive RunOutcome where
  | cancelled (msg : PyStr) (objects : List MeshObj)
  | exception (msg : PyStr) (objects : List MeshObj)
  | finished (count : Nat) (objects : List MeshObj)
deriving DecidableEq

/-- The selected objects' final state, whatever the outcome. -/
def RunOutcome.objects : RunOutcome → List MeshObj
  | .cancelled _ objs => objs
  | .exception _ objs => objs
  | .finished _ objs => objs

/-- Did the invocation abort (cancel or uncaught exception) rather than
finish? -/
def RunOutcome.aborted : RunOutcome → Bool
  | .cancelled _ _ => true
  | .exception _ _ => true
  | .finished _ _ => false

/-- Python `max` on a list of integers: `none` models the `ValueError` on an
empty sequence.  (The sources apply `max` to sets and generators; membership
and maximum over the underlying multiset of values are unchanged by that.) -/
def listMaxInt : List Int → Option Int
  | [] => none
  | x :: xs =>
    match listMaxInt xs with
    | none => some x
    | some m => some (max x m)

/-- The values consumed by `max(v for comp in components for v in
comp["vg_map"].values())`: `none` models the `KeyError` raised as soon as a
component without a `vg_map` key is reached. -/
def mergedVgValues : List Component → Option (List Int)
  | [] => some []
  | c :: cs =>
    match c.vg_map with
    | none => none
    | some m => (mergedVgValues cs).map (fun vs => m.map Prod.snd ++ vs)

/-- `merged_max_vg` as both versions compute it; `none` models the raising
`max(...)` call (missing `vg_map` key, or no values at all). -/
def mergedMaxVg (components : List Component) : Option Int :=
  (mergedVgValues components).bind listMaxInt

/-- v1.1.0's `global_exception_vgs`: union of the `vg_map` values of every
component at position ≥ 3.  The run evaluates this only after `mergedMaxVg`
succeeded, which guarantees every component carries a `vg_map`; the `getD []`
stands for `comp["vg_map"]` under that guarantee. -/
def globalExceptionVgs (components : List Component) : List Int :=
  ((components.drop 3).map vgMapValues).flatten

/-- `re.search` of `Component\s*(\d+)` followed by `int(m.group(1))`, tried at
one start position: the literal, then greedy whitespace, then a non-empty
greedy digit run (no backtracking can succeed elsewhere since no whitespace
character is a digit). -/
def matchComponentAt (cs : PyStr) : Option Nat :=
  if pyStartswith componentLit cs then
    let rest := (cs.drop 9).dropWhile isPySpace
    let ds := rest.takeWhile Char.isDigit
    if ds.isEmpty then none else some (digitsNatVal ds)
  else none

/-- `re.search` semantics: the match at the leftmost feasible start position. -/
def searchComponentId : PyStr → Option Nat
  | [] => none
  | c :: cs =>
    match matchComponentAt (c :: cs) with
    | some n => some n
    | none => searchComponentId cs

/-- Does any vertex of `vertices` list group index `idx` among its
memberships?  (`remove_zero_weight_vgroups`' inner loops; the weight is never
read.) -/
def vgUsed (vertices : List Vertex) (idx : Nat) : Bool :=
  vertices.any (fun v => v.groups.any (fun g => g.group == idx))

/-- `remove_zero_weight_vgroups` (textually identical in both versions):
collect the groups no vertex lists during a full scan, then remove exactly
those, after the scan. -/
def remove_zero_weight_vgroups (obj : MeshObj) : MeshObj :=
  let vg_to_delete := obj.vertex_groups.filter (fun vg => !(vgUsed obj.vertices vg.index))
  { obj with vertex_groups :=
      obj.vertex_groups.filter (fun vg => decide (vg ∉ vg_to_delete)) }

/-- The per-group rename of v1.0.0's inner loop (lines 124-151).  Written as
the value of `vg.name` after the iteration touches `vg`; the kept/renamed
branches follow the source's order: non-numeric skip, threshold skip,
exception (Check marker under `component_max_vg >= 256`), else the `+256`
remap.  Blender's suffixing of a colliding new name is host behaviour the
source never handles and is not modelled. -/
def fixGroupName (threshold : Int) (exception_vgs : List Int)
    (component_max_vg : Int) (name : PyStr) : PyStr :=
  match pyParseInt name with
  | none => name
  | some vg_num =>
    if vg_num > threshold then name
    else if exception_vgs.contains vg_num then
      if 256 ≤ component_max_vg then
        if pyStartswith checkLit name then name else checkLit ++ name
      else name
    else pyIntStr (vg_num + 256)

/-- The per-group rename of v1.1.0's inner loop (lines 103-131): identical to
v1.0.0's except that the exception test is
`vg_num in global_exception_vgs or vg_num in local_vg_map`. -/
def fixGroupName_v110 (threshold : Int) (global_exception_vgs local_vg_map : List Int)
    (component_max_vg : Int) (name : PyStr) : PyStr :=
  match pyParseInt name with
  | none => name
  | some vg_num =>
    if vg_num > threshold then name
    else if global_exception_vgs.contains vg_num || local_vg_map.contains vg_num then
      if 256 ≤ component_max_vg then
        if pyStartswith checkLit name then name else checkLit ++ name
      else name
    else pyIntStr (vg_num + 256)

/-- Rename every group of `obj` through one per-group function (the `for vg in
obj.vertex_groups` loop: each group is visited once and only its own name is
read and written). -/
def renameGroups (f : PyStr → PyStr) (obj : MeshObj) : MeshObj :=
  { obj with vertex_groups := obj.vertex_groups.map (fun vg => { vg with name := f vg.name }) }

/-- v1.0.0's body of the object loop for one object (lines 103-157): the
non-mesh / no-component-id / out-of-range / empty-`vg_map` skips, then the
group renames, then the optional zero-weight sweep.  Returns the object's
final state and its contribution to `processed_objects`. -/
def processObj_v100 (components : List Component) (threshold : Int)
    (remove_zero : Bool) (obj : MeshObj) : MeshObj × Nat :=
  if obj.obj_type ≠ "MESH".data then (obj, 0)
  else
    match searchComponentId obj.name with
    | none => (obj, 0)
    | some comp_id =>
      if components.length ≤ comp_id then (obj, 0)
      else
        let vg_map_vals := vgMapValues (components.getD comp_id default)
        if vg_map_vals = [] then (obj, 0)
        else
          -- `max(exception_vgs)` cannot raise: the branch above guarantees a
          -- non-empty value list, so the `getD 0` default is never taken.
          let component_max_vg := (listMaxInt vg_map_vals).getD 0
          let obj1 := renameGroups (fixGroupName threshold vg_map_vals component_max_vg) obj
          let obj2 := if remove_zero then remove_zero_weight_vgroups obj1 else obj1
          (obj2, 1)

/-- v1.0.0's `for obj in context.selected_objects` loop: every object is
processed independently; no per-object step can raise. -/
def runLoop_v100 (components : List Component) (threshold : Int)
    (remove_zero : Bool) : List MeshObj → List MeshObj × Nat
  | [] => ([], 0)
  | obj :: rest =>
    let p := processObj_v100 components threshold remove_zero obj
    let r := runLoop_v100 components threshold remove_zero rest
    (p.1 :: r.1, p.2 + r.2)

/-- `WWMI_OT_auto_fix_vgs.execute` of v1.0.0: the guarded metadata-loading
stage (path set, file readable, JSON parsed, `components` truthy, `max`
computed — every failure is caught and reported as CANCELLED), then the
object loop. -/
def execute_v100 (input : MetadataInput) (selected : List MeshObj)
    (remove_zero : Bool) : RunOutcome :=
  match input with
  | .pathNotSet => .cancelled ("Metadata JSON path is not set.".data) selected
  | .fileMissing => .cancelled ("File not found: ".data) selected
  | .badJson => .cancelled ("Failed to read metadata JSON: ".data) selected
  | .doc components? =>
    match components? with
    | none => .cancelled ("Invalid metadata: 'components' field missing.".data) selected
    | some components =>
      if components = [] then
        .cancelled ("Invalid metadata: 'components' field missing.".data) selected
      else
        match mergedMaxVg components with
        | none => .cancelled ("Failed to compute max VG: ".data) selected
        | some merged_max_vg =>
          let threshold := merged_max_vg - 256
          let r := runLoop_v100 components threshold remove_zero selected
          .finished r.2 r.1

/-- v1.1.0's body of the object loop for one object (lines 88-134).  Unlike
v1.0.0 there is no empty-`vg_map` skip: `max(local_vg_map)` on an empty set
raises an uncaught `ValueError`, modelled as the error case. -/
def processObj_v110 (components : List Component) (threshold : Int)
    (global_exception_vgs : List Int) (remove_zero : Bool) (obj : MeshObj) :
    Except PyStr (MeshObj × Nat) :=
  if obj.obj_type ≠ "MESH".data then .ok (obj, 0)
  else
    match searchComponentId obj.name with
    | none => .ok (obj, 0)
    | some comp_id =>
      if components.length ≤ comp_id then .ok (obj, 0)
      else
        let local_vg_map := vgMapValues (components.getD comp_id default)
        match listMaxInt local_vg_map with
        | none => .error ("ValueError: max() arg is an empty sequence".data)
        | some component_max_vg =>
          let obj1 := renameGroups
            (fixGroupName_v110 threshold global_exception_vgs local_vg_map component_max_vg) obj
          let obj2 := if remove_zero then remove_zero_weight_vgroups obj1 else obj1
          .ok (obj2, 1)

/-- v1.1.0's object loop: an uncaught exception stops iteration, leaving the
raising object and all later objects untouched and earlier objects in their
renamed state. -/
def runLoop_v110 (components : List Component) (threshold : Int)
    (global_exception_vgs : List Int) (remove_zero : Bool) :
    List MeshObj → Except (PyStr × List MeshObj) (List MeshObj × Nat)
  | [] => .ok ([], 0)
  | obj :: rest =>
    match processObj_v110 components threshold global_exception_vgs remove_zero obj with
    | .error msg => .error (msg, obj :: rest)
    | .ok (obj1, k) =>
      match runLoop_v110 components threshold global_exception_vgs remove_zero rest with
      | .error (msg, rest1) => .error (msg, obj1 :: rest1)
      | .ok (rest1, n) => .ok (obj1 :: rest1, k + n)

/-- `WWMI_OT_auto_fix_vgs.execute` of v1.1.0: only the file check and the
`components` truthiness check report CANCELLED; a `json.load` failure, a
raising `max(...)` and a raising object loop are uncaught exceptions. -/
def execute_v110 (input : MetadataInput) (selected : List MeshObj)
    (remove_zero : Bool) : RunOutcome :=
  match input with
  | .pathNotSet => .cancelled ("File not found: ".data) selected
  | .fileMissing => .cancelled ("File not found: ".data) selected
  | .badJson => .exception ("json.decoder.JSONDecodeError".data) selected
  | .doc components? =>
    match components? with
    | none => .cancelled ("Invalid metadata: no 'components'".data) selected
    | some components =>
      if components = [] then
        .cancelled ("Invalid metadata: no 'components'".data) selected
      else
        match mergedMaxVg components with
        | none =>
          -- `max(...)` raised `KeyError` (a missing `vg_map`) or `ValueError`
          -- (no values at all); neither is caught.
          .exception ("uncaught error computing max VG".data) selected
        | some merged_max_vg =>
          let threshold := merged_max_vg - 256
          let gvgs := globalExceptionVgs components
          match runLoop_v110 components threshold gvgs remove_zero selected with
          | .error (msg, objs) => .exception msg objs
          | .ok (objs, n) => .finished n objs

/-- The anchored pattern `^Check(\d+)$` of both versions'
`WWMI_OT_remove_check_prefix.execute`, with Python `re` semantics: `match`
anchors at the start, `(\d+)` greedily captures one or more digits (ASCII
here, like the rest of this embedding), and `$` matches at the end of the
string or just before one newline that ends the string — so a single
trailing `'\n'` is tolerated and left out of the capture.  Backtracking the
greedy `\d+` can never help, since `$` only succeeds when the remainder is
empty or `"\n"` and a digit is neither. -/
def reCheckMatch (cs : PyStr) : Option PyStr :=
  if pyStartswith checkLit cs then
    let rest := cs.drop 5
    let ds := rest.takeWhile Char.isDigit
    let tail := rest.dropWhile Char.isDigit
    if !ds.isEmpty && (tail.isEmpty || tail == ['\n']) then some ds else none
  else none

/-- The rename one group undergoes in the remove-check pass: the captured
digits on a match, the unchanged name otherwise. -/
def removeCheckName (cs : PyStr) : PyStr :=
  match reCheckMatch cs with
  | some ds => ds
  | none => cs

/-- Did the remove-check pass change at least one group of this object?
(`changed = True` in the source.) -/
def removeCheckChanged (obj : MeshObj) : Bool :=
  obj.vertex_groups.any (fun vg => (reCheckMatch vg.name).isSome)

/-- `WWMI_OT_remove_check_prefix.execute` (behaviourally identical in both
versions): rename matching groups of every selected mesh object and count the
objects with at least one change. -/
def execute_removeCheck (selected : List MeshObj) : List MeshObj × Nat :=
  (selected.map (fun obj =>
      if obj.obj_type ≠ "MESH".data then obj else renameGroups removeCheckName obj),
   (selected.filter (fun obj =>
      obj.obj_type = "MESH".data ∧ removeCheckChanged obj)).length)

/-- Spec-side reference value for C2: the multiset of all `vg_map` values of
all components, as the spec's words "the maximum over all vg_map values of
all components" describe it. -/
def allVgValuesSpec (components : List Component) : List Int :=
  (components.map vgMapValues).flatten

/-- Spec-side description of a failing metadata load, following the spec's
words: file missing or unreadable, malformed JSON, missing (or falsy)
`components` key, or `MergedMaxVG` cannot be computed (a component without a
`vg_map`, or no values at all). -/
def loadFailsSpec : MetadataInput → Prop
  | .pathNotSet => True
  | .fileMissing => True
  | .badJson => True
  | .doc none => True
  | .doc (some comps) =>
      comps = [] ∨ (∃ c ∈ comps, c.vg_map = none) ∨ allVgValuesSpec comps = []

theorem listMaxInt_mem {l : List Int} {m : Int} (h : listMaxInt l = some m) :
    m ∈ l := by
  induction l generalizing m with
  | nil => simp [listMaxInt] at h
  | cons x xs ih =>
    simp only [listMaxInt] at h
    cases hx : listMaxInt xs with
    | none =>
      rw [hx] at h
      injection h with h
      subst h
      exact List.mem_cons_self _ _
    | some m' =>
      rw [hx] at h
      injection h with h
      subst h
      rcases max_choice x m' with h1 | h1 <;> rw [h1]
      · exact List.mem_cons_self _ _
      · exact List.mem_cons_of_mem _ (ih hx)

theorem listMaxInt_nil_iff (l : List Int) : listMaxInt l = none ↔ l = [] := by
  cases l with
  | nil => simp [listMaxInt]
  | cons x xs => cases hx : listMaxInt xs <;> simp [listMaxInt, hx]

theorem listMaxInt_le {l : List Int} {m : Int} (h : listMaxInt l = some m) :
    ∀ x ∈ l, x ≤ m := by
  induction l generalizing m with
  | nil => simp [listMaxInt] at h
  | cons x xs ih =>
    simp only [listMaxInt] at h
    cases hx : listMaxInt xs with
    | none =>
      rw [hx] at h
      injection h with h
      subst h
      intro y hy
      rcases List.mem_cons.mp hy with h2 | h2
      · exact h2.le
      · have hnil : xs = [] := (listMaxInt_nil_iff xs).mp hx
        subst hnil
        simp at h2
    | some m' =>
      rw [hx] at h
      injection h with h
      subst h
      intro y hy
      rcases List.mem_cons.mp hy with h2 | h2
      · exact h2 ▸ le_max_left x m'
      · exact le_trans (ih hx y h2) (le_max_right x m')

theorem listMaxInt_cons_isSome (x : Int) (xs : List Int) :
    ∃ m, listMaxInt (x :: xs) = some m := by
  cases hx : listMaxInt xs <;> simp [listMaxInt, hx]

theorem mergedVgValues_eq {comps : List Component}
    (h : ∀ c ∈ comps, c.vg_map ≠ none) :
    mergedVgValues comps = some (allVgValuesSpec comps) := by
  induction comps with
  | nil => rfl
  | cons c cs ih =>
    cases hm : c.vg_map with
    | none => exact absurd hm (h c (List.mem_cons_self _ _))
    | some m =>
      have := ih (fun d hd => h d (List.mem_cons_of_mem _ hd))
      simp [mergedVgValues, hm, this, allVgValuesSpec, vgMapValues]

theorem mergedVgValues_none {comps : List Component}
    (h : ∃ c ∈ comps, c.vg_map = none) :
    mergedVgValues comps = none := by
  induction comps with
  | nil => simp at h
  | cons c cs ih =>
    rcases h with ⟨d, hd, hnone⟩
    rcases List.mem_cons.mp hd with h1 | h1
    · subst h1
      simp [mergedVgValues, hnone]
    · cases hm : c.vg_map with
      | none => simp [mergedVgValues, hm]
      | some m => simp [mergedVgValues, hm, ih ⟨d, h1, hnone⟩]

theorem rstripPy_cons {c : Char} (h : isPySpace c = false) (cs : PyStr) :
    rstripPy (c :: cs) = c :: rstripPy cs := by
  unfold rstripPy
  rw [List.reverse_cons, List.dropWhile_append]
  cases hd : (cs.reverse.dropWhile isPySpace).isEmpty with
  | true =>
    simp only [if_pos rfl]
    rw [List.isEmpty_iff] at hd
    simp [List.dropWhile_cons, h, hd]
  | false =>
    simp only [Bool.false_eq_true, if_neg, hd]
    simp [hd, List.reverse_append]

theorem stripPy_cons {c : Char} (h : isPySpace c = false) (cs : PyStr) :
    stripPy (c :: cs) = c :: rstripPy cs := by
  unfold stripPy
  rw [List.dropWhile_cons, if_neg (by simp [h]), rstripPy_cons h]

theorem pyParseInt_cons_none {c : Char} (h1 : isPySpace c = false)
    (h2 : c ≠ '+') (h3 : c ≠ '-') (h4 : c.isDigit = false) (cs : PyStr) :
    pyParseInt (c :: cs) = none := by
  unfold pyParseInt
  rw [stripPy_cons h1]
  simp only [if_neg h2, if_neg h3]
  have : pyDigitsOk (c :: rstripPy cs) = false := by simp [pyDigitsOk, h4]
  simp [this]

theorem checkLit_eq : checkLit = 'C' :: 'h' :: 'e' :: 'c' :: 'k' :: [] := rfl

theorem pyParseInt_check_append (ds : PyStr) :
    pyParseInt (checkLit ++ ds) = none := by
  rw [checkLit_eq]
  exact pyParseInt_cons_none (by decide) (by decide) (by decide) (by decide) _

theorem pyStartswith_check_eq_true {cs : PyStr}
    (h : pyStartswith checkLit cs = true) :
    ∃ rest, cs = 'C' :: rest := by
  rw [checkLit_eq] at h
  cases cs with
  | nil => simp [pyStartswith] at h
  | cons c rest =>
    refine ⟨rest, ?_⟩
    simp only [pyStartswith, Bool.and_eq_true, beq_iff_eq] at h
    rw [h.1]

theorem pyParseInt_some_not_check {cs : PyStr} {n : Int}
    (h : pyParseInt cs = some n) : pyStartswith checkLit cs = false := by
  cases hs : pyStartswith checkLit cs with
  | false => rfl
  | true =>
    obtain ⟨rest, hrest⟩ := pyStartswith_check_eq_true hs
    rw [hrest] at h
    rw [pyParseInt_cons_none (by decide) (by decide) (by decide) (by decide)] at h
    exact absurd h (by simp)

theorem pyStartswith_append (p rest : PyStr) :
    pyStartswith p (p ++ rest) = true := by
  induction p with
  | nil => rfl
  | cons c cs ih => simp [pyStartswith, ih]

theorem pyStartswith_check_digit {d : Char} (h : d.isDigit = true) (ds : PyStr) :
    pyStartswith checkLit (d :: ds) = false := by
  rw [checkLit_eq]
  simp only [pyStartswith, Bool.and_eq_false_iff]
  left
  rw [beq_eq_false_iff_ne]
  intro hc
  rw [← hc] at h
  exact absurd h (by decide)

theorem fixGroupName_parse_none {name : PyStr} (h : pyParseInt name = none)
    (thr cmax : Int) (exc : List Int) :
    fixGroupName thr exc cmax name = name := by
  simp [fixGroupName, h]

theorem fixGroupName_v110_parse_none {name : PyStr} (h : pyParseInt name = none)
    (thr cmax : Int) (g l : List Int) :
    fixGroupName_v110 thr g l cmax name = name := by
  simp [fixGroupName_v110, h]

theorem fixGroupName_above {name : PyStr} {n thr : Int}
    (h : pyParseInt name = some n) (hgt : n > thr) (cmax : Int) (exc : List Int) :
    fixGroupName thr exc cmax name = name := by
  simp [fixGroupName, h, hgt]

theorem fixGroupName_v110_above {name : PyStr} {n thr : Int}
    (h : pyParseInt name = some n) (hgt : n > thr) (cmax : Int) (g l : List Int) :
    fixGroupName_v110 thr g l cmax name = name := by
  simp [fixGroupName_v110, h, hgt]

theorem fixGroupName_exception_mark {name : PyStr} {n thr cmax : Int}
    {exc : List Int} (h : pyParseInt name = some n) (hle : ¬ n > thr)
    (hexc : exc.contains n = true) (hmax : 256 ≤ cmax) :
    fixGroupName thr exc cmax name = checkLit ++ name := by
  have hm : n ∈ exc := by simpa using hexc
  simp [fixGroupName, h, hle, hm, hmax, pyParseInt_some_not_check h]

theorem fixGroupName_v110_exception_mark {name : PyStr} {n thr cmax : Int}
    {g l : List Int} (h : pyParseInt name = some n) (hle : ¬ n > thr)
    (hexc : g.contains n = true ∨ l.contains n = true) (hmax : 256 ≤ cmax) :
    fixGroupName_v110 thr g l cmax name = checkLit ++ name := by
  have hm : n ∈ g ∨ n ∈ l := by
    rcases hexc with h1 | h1
    · exact Or.inl (by simpa using h1)
    · exact Or.inr (by simpa using h1)
  rcases hm with hm | hm <;>
    simp [fixGroupName_v110, h, hle, hm, hmax, pyParseInt_some_not_check h]

theorem fixGroupName_exception_keep {name : PyStr} {n thr cmax : Int}
    {exc : List Int} (h : pyParseInt name = some n) (hle : ¬ n > thr)
    (hexc : exc.contains n = true) (hmax : ¬ 256 ≤ cmax) :
    fixGroupName thr exc cmax name = name := by
  have hm : n ∈ exc := by simpa using hexc
  simp [fixGroupName, h, hle, hm, hmax]

theorem fixGroupName_v110_exception_keep {name : PyStr} {n thr cmax : Int}
    {g l : List Int} (h : pyParseInt name = some n) (hle : ¬ n > thr)
    (hexc : g.contains n = true ∨ l.contains n = true) (hmax : ¬ 256 ≤ cmax) :
    fixGroupName_v110 thr g l cmax name = name := by
  have hm : n ∈ g ∨ n ∈ l := by
    rcases hexc with h1 | h1
    · exact Or.inl (by simpa using h1)
    · exact Or.inr (by simpa using h1)
  rcases hm with hm | hm <;> simp [fixGroupName_v110, h, hle, hm, hmax]

theorem fixGroupName_offset {name : PyStr} {n thr : Int} {exc : List Int}
    (h : pyParseInt name = some n) (hle : ¬ n > thr)
    (hexc : exc.contains n = false) (cmax : Int) :
    fixGroupName thr exc cmax name = pyIntStr (n + 256) := by
  have hm : n ∉ exc := by simpa using hexc
  simp [fixGroupName, h, hle, hm]

theorem fixGroupName_v110_offset {name : PyStr} {n thr : Int} {g l : List Int}
    (h : pyParseInt name = some n) (hle : ¬ n > thr)
    (hg : g.contains n = false) (hl : l.contains n = false) (cmax : Int) :
    fixGroupName_v110 thr g l cmax name = pyIntStr (n + 256) := by
  have hmg : n ∉ g := by simpa using hg
  have hml : n ∉ l := by simpa using hl
  simp [fixGroupName_v110, h, hle, hmg, hml]

theorem fixGroupName_check_append (thr cmax : Int) (exc : List Int) (ds : PyStr) :
    fixGroupName thr exc cmax (checkLit ++ ds) = checkLit ++ ds :=
  fixGroupName_parse_none (pyParseInt_check_append ds) thr cmax exc

theorem fixGroupName_v110_check_append (thr cmax : Int) (g l : List Int) (ds : PyStr) :
    fixGroupName_v110 thr g l cmax (checkLit ++ ds) = checkLit ++ ds :=
  fixGroupName_v110_parse_none (pyParseInt_check_append ds) thr cmax g l

theorem pyStartswith_iff (p s : PyStr) :
    pyStartswith p s = true ↔ ∃ t, s = p ++ t := by
  induction p generalizing s with
  | nil => simp [pyStartswith]
  | cons c cs ih =>
    cases s with
    | nil => simp [pyStartswith]
    | cons d ds =>
      simp only [pyStartswith, Bool.and_eq_true, beq_iff_eq, ih]
      constructor
      · rintro ⟨hcd, t, ht⟩
        subst hcd
        exact ⟨t, by rw [ht]; rfl⟩
      · rintro ⟨t, ht⟩
        injection ht with h1 h2
        exact ⟨h1.symm, t, h2⟩

theorem digitRun_split {ds t : PyStr} (hds : ds.all Char.isDigit = true)
    (ht : t = [] ∨ t = ['\n']) :
    (ds ++ t).takeWhile Char.isDigit = ds
    ∧ (ds ++ t).dropWhile Char.isDigit = t := by
  induction ds with
  | nil =>
    rcases ht with rfl | rfl
    · exact ⟨rfl, rfl⟩
    · exact ⟨by decide, by decide⟩
  | cons d rest ih =>
    simp only [List.all_cons, Bool.and_eq_true] at hds
    obtain ⟨hd, hrest⟩ := hds
    obtain ⟨ih1, ih2⟩ := ih hrest
    constructor
    · simp [List.takeWhile_cons, hd, ih1]
    · simp [List.dropWhile_cons, hd, ih2]

theorem reCheckMatch_digits {ds : PyStr} (h1 : ds.all Char.isDigit = true)
    (h2 : ds ≠ []) : reCheckMatch (checkLit ++ ds) = some ds := by
  obtain ⟨htake, hdrop2⟩ := digitRun_split h1 (Or.inl rfl)
  rw [List.append_nil] at htake hdrop2
  unfold reCheckMatch
  rw [if_pos (pyStartswith_append checkLit ds)]
  have hdrop : (checkLit ++ ds).drop 5 = ds := by rw [checkLit_eq]; rfl
  rw [hdrop]
  simp [htake, hdrop2, h2]

theorem reCheckMatch_digits_newline {ds : PyStr} (h1 : ds.all Char.isDigit = true)
    (h2 : ds ≠ []) : reCheckMatch (checkLit ++ (ds ++ ['\n'])) = some ds := by
  obtain ⟨htake, hdrop2⟩ := digitRun_split h1 (Or.inr rfl)
  unfold reCheckMatch
  rw [if_pos (pyStartswith_append checkLit (ds ++ ['\n']))]
  have hdrop : (checkLit ++ (ds ++ ['\n'])).drop 5 = ds ++ ['\n'] := by
    rw [checkLit_eq]; rfl
  rw [hdrop]
  simp [htake, hdrop2, h2]

theorem reCheckMatch_iff (cs es : PyStr) :
    reCheckMatch cs = some es ↔
      (es.all Char.isDigit = true ∧ es ≠ []
        ∧ (cs = checkLit ++ es ∨ cs = checkLit ++ es ++ ['\n'])) := by
  constructor
  · intro h
    unfold reCheckMatch at h
    by_cases hp : pyStartswith checkLit cs = true
    · rw [if_pos hp] at h
      obtain ⟨t, ht⟩ := (pyStartswith_iff _ _).mp hp
      subst ht
      have hdrop : (checkLit ++ t).drop 5 = t := by rw [checkLit_eq]; rfl
      rw [hdrop] at h
      cases hcond : (!(t.takeWhile Char.isDigit).isEmpty &&
          ((t.dropWhile Char.isDigit).isEmpty
            || t.dropWhile Char.isDigit == ['\n'])) with
      | false => simp [hcond] at h
      | true =>
        simp only [hcond] at h
        rw [if_pos trivial] at h
        injection h with h
        subst h
        rcases (Bool.and_eq_true _ _).mp hcond with ⟨hne, htail⟩
        refine ⟨List.all_takeWhile, by simpa using hne, ?_⟩
        have hsplit := List.takeWhile_append_dropWhile Char.isDigit t
        rcases Bool.or_eq_true _ _ |>.mp htail with h3 | h3
        · have hnil : t.dropWhile Char.isDigit = [] := by simpa using h3
          rw [hnil, List.append_nil] at hsplit
          left
          rw [hsplit]
        · have hnl : t.dropWhile Char.isDigit = ['\n'] := by simpa using h3
          rw [hnl] at hsplit
          right
          rw [List.append_assoc, hsplit]
    · rw [if_neg hp] at h
      simp at h
  · rintro ⟨h1, h2, rfl | rfl⟩
    · exact reCheckMatch_digits h1 h2
    · rw [List.append_assoc]
      exact reCheckMatch_digits_newline h1 h2

theorem reCheckMatch_digits_none {ds : PyStr} (h1 : ds.all Char.isDigit = true)
    (h2 : ds ≠ []) : reCheckMatch ds = none := by
  cases ds with
  | nil => exact absurd rfl h2
  | cons d rest =>
    have hd : d.isDigit = true := by
      have := List.all_eq_true.mp h1 d (List.mem_cons_self _ _)
      simpa using this
    unfold reCheckMatch
    rw [if_neg]
    rw [pyStartswith_check_digit hd]
    simp

theorem removeCheckName_append {ds : PyStr} (h1 : ds.all Char.isDigit = true)
    (h2 : ds ≠ []) : removeCheckName (checkLit ++ ds) = ds := by
  unfold removeCheckName
  rw [reCheckMatch_digits h1 h2]

theorem removeCheckName_append_newline {ds : PyStr}
    (h1 : ds.all Char.isDigit = true) (h2 : ds ≠ []) :
    removeCheckName (checkLit ++ (ds ++ ['\n'])) = ds := by
  unfold removeCheckName
  rw [reCheckMatch_digits_newline h1 h2]

theorem removeCheckName_no_match {cs : PyStr} (h : reCheckMatch cs = none) :
    removeCheckName cs = cs := by
  unfold removeCheckName
  rw [h]

theorem removeCheckName_idem (cs : PyStr) :
    removeCheckName (removeCheckName cs) = removeCheckName cs := by
  cases hm : reCheckMatch cs with
  | none => rw [removeCheckName_no_match hm, removeCheckName_no_match hm]
  | some ds =>
    obtain ⟨h1, h2, -⟩ := (reCheckMatch_iff cs ds).mp hm
    have hcs : removeCheckName cs = ds := by unfold removeCheckName; rw [hm]
    rw [hcs, removeCheckName_no_match (reCheckMatch_digits_none h1 h2)]

theorem vgUsed_iff (vertices : List Vertex) (idx : Nat) :
    vgUsed vertices idx = true ↔
      ∃ v ∈ vertices, ∃ e ∈ v.groups, e.group = idx := by
  simp [vgUsed, List.any_eq_true]

theorem remove_zero_weight_vgroups_eq_filter (obj : MeshObj) :
    remove_zero_weight_vgroups obj =
      { obj with vertex_groups :=
          obj.vertex_groups.filter (fun vg => vgUsed obj.vertices vg.index) } := by
  have hfil :
      obj.vertex_groups.filter
        (fun vg => decide
          (vg ∉ obj.vertex_groups.filter (fun vg => !(vgUsed obj.vertices vg.index)))) =
        obj.vertex_groups.filter (fun vg => vgUsed obj.vertices vg.index) := by
    apply List.filter_congr
    intro x hx
    by_cases hu : vgUsed obj.vertices x.index = true
    · simp [List.mem_filter, hu]
    · simp only [Bool.not_eq_true] at hu
      simp [List.mem_filter, hx, hu]
  simp only [remove_zero_weight_vgroups]
  rw [hfil]

theorem processObj_v100_not_mesh {obj : MeshObj}
    (h : ¬ obj.obj_type = "MESH".data) (comps : List Component) (thr : Int)
    (rz : Bool) : processObj_v100 comps thr rz obj = (obj, 0) := by
  simp [processObj_v100, h]

theorem processObj_v100_no_id {obj : MeshObj}
    (hm : obj.obj_type = "MESH".data) (h : searchComponentId obj.name = none)
    (comps : List Component) (thr : Int) (rz : Bool) :
    processObj_v100 comps thr rz obj = (obj, 0) := by
  simp [processObj_v100, hm, h]

theorem processObj_v100_out_of_range {obj : MeshObj} {cid : Nat}
    {comps : List Component} (hm : obj.obj_type = "MESH".data)
    (hs : searchComponentId obj.name = some cid) (hge : comps.length ≤ cid)
    (thr : Int) (rz : Bool) : processObj_v100 comps thr rz obj = (obj, 0) := by
  simp [processObj_v100, hm, hs, hge]

theorem processObj_v100_empty_map {obj : MeshObj} {cid : Nat}
    {comps : List Component} (hm : obj.obj_type = "MESH".data)
    (hs : searchComponentId obj.name = some cid) (hlt : cid < comps.length)
    (hempty : vgMapValues (comps.getD cid default) = []) (thr : Int) (rz : Bool) :
    processObj_v100 comps thr rz obj = (obj, 0) := by
  have hempty' := hempty
  rw [List.getD_eq_getElem?_getD] at hempty'
  simp [processObj_v100, hm, hs, Nat.not_le.mpr hlt, hempty']

theorem processObj_v100_process {obj : MeshObj} {cid : Nat}
    {comps : List Component} (hm : obj.obj_type = "MESH".data)
    (hs : searchComponentId obj.name = some cid) (hlt : cid < comps.length)
    (hne : vgMapValues (comps.getD cid default) ≠ []) (thr : Int) (rz : Bool) :
    processObj_v100 comps thr rz obj =
      ((if rz then
          remove_zero_weight_vgroups
            (renameGroups
              (fixGroupName thr (vgMapValues (comps.getD cid default))
                ((listMaxInt (vgMapValues (comps.getD cid default))).getD 0)) obj)
        else
          renameGroups
            (fixGroupName thr (vgMapValues (comps.getD cid default))
              ((listMaxInt (vgMapValues (comps.getD cid default))).getD 0)) obj), 1) := by
  have hne' := hne
  rw [List.getD_eq_getElem?_getD] at hne'
  simp [processObj_v100, hm, hs, Nat.not_le.mpr hlt, hne', List.getD_eq_getElem?_getD]

theorem processObj_v110_not_mesh {obj : MeshObj}
    (h : ¬ obj.obj_type = "MESH".data) (comps : List Component) (thr : Int)
    (g : List Int) (rz : Bool) :
    processObj_v110 comps thr g rz obj = .ok (obj, 0) := by
  simp [processObj_v110, h]

theorem processObj_v110_no_id {obj : MeshObj}
    (hm : obj.obj_type = "MESH".data) (h : searchComponentId obj.name = none)
    (comps : List Component) (thr : Int) (g : List Int) (rz : Bool) :
    processObj_v110 comps thr g rz obj = .ok (obj, 0) := by
  simp [processObj_v110, hm, h]

theorem processObj_v110_out_of_range {obj : MeshObj} {cid : Nat}
    {comps : List Component} (hm : obj.obj_type = "MESH".data)
    (hs : searchComponentId obj.name = some cid) (hge : comps.length ≤ cid)
    (thr : Int) (g : List Int) (rz : Bool) :
    processObj_v110 comps thr g rz obj = .ok (obj, 0) := by
  simp [processObj_v110, hm, hs, hge]

theorem processObj_v110_empty_map {obj : MeshObj} {cid : Nat}
    {comps : List Component} (hm : obj.obj_type = "MESH".data)
    (hs : searchComponentId obj.name = some cid) (hlt : cid < comps.length)
    (hempty : vgMapValues (comps.getD cid default) = []) (thr : Int)
    (g : List Int) (rz : Bool) :
    processObj_v110 comps thr g rz obj =
      .error ("ValueError: max() arg is an empty sequence".data) := by
  have hempty' := hempty
  rw [List.getD_eq_getElem?_getD] at hempty'
  simp [processObj_v110, hm, hs, Nat.not_le.mpr hlt, hempty', listMaxInt]

theorem processObj_v110_process {obj : MeshObj} {cid : Nat} {cmax : Int}
    {comps : List Component} (hm : obj.obj_type = "MESH".data)
    (hs : searchComponentId obj.name = some cid) (hlt : cid < comps.length)
    (hmax : listMaxInt (vgMapValues (comps.getD cid default)) = some cmax)
    (thr : Int) (g : List Int) (rz : Bool) :
    processObj_v110 comps thr g rz obj =
      .ok ((if rz then
          remove_zero_weight_vgroups
            (renameGroups
              (fixGroupName_v110 thr g (vgMapValues (comps.getD cid default)) cmax) obj)
        else
          renameGroups
            (fixGroupName_v110 thr g (vgMapValues (comps.getD cid default)) cmax) obj), 1) := by
  have hmax' := hmax
  rw [List.getD_eq_getElem?_getD] at hmax'
  simp [processObj_v110, hm, hs, Nat.not_le.mpr hlt, hmax', List.getD_eq_getElem?_getD]

theorem runLoop_v100_cons (comps : List Component) (thr : Int) (rz : Bool)
    (obj : MeshObj) (rest : List MeshObj) :
    runLoop_v100 comps thr rz (obj :: rest) =
      ((processObj_v100 comps thr rz obj).1 :: (runLoop_v100 comps thr rz rest).1,
       (processObj_v100 comps thr rz obj).2 + (runLoop_v100 comps thr rz rest).2) :=
  rfl

theorem runLoop_v110_cons_ok {comps : List Component} {thr : Int}
    {g : List Int} {rz : Bool} {obj obj1 : MeshObj} {k : Nat}
    (h : processObj_v110 comps thr g rz obj = .ok (obj1, k)) (rest : List MeshObj) :
    runLoop_v110 comps thr g rz (obj :: rest) =
      match runLoop_v110 comps thr g rz rest with
      | .error (msg, rest1) => .error (msg, obj1 :: rest1)
      | .ok (rest1, n) => .ok (obj1 :: rest1, k + n) := by
  simp [runLoop_v110, h]

theorem runLoop_v110_cons_error {comps : List Component} {thr : Int}
    {g : List Int} {rz : Bool} {obj : MeshObj} {msg : PyStr}
    (h : processObj_v110 comps thr g rz obj = .error msg) (rest : List MeshObj) :
    runLoop_v110 comps thr g rz (obj :: rest) = .error (msg, obj :: rest) := by
  simp [runLoop_v110, h]

theorem fixGroupName_v110_nil_global (thr cmax : Int) (l : List Int)
    (name : PyStr) :
    fixGroupName_v110 thr [] l cmax name = fixGroupName thr l cmax name := by
  cases h : pyParseInt name <;> simp [fixGroupName_v110, fixGroupName, h]

theorem processObj_v110_eq_v100 {comps : List Component} (thr : Int) (rz : Bool)
    (obj : MeshObj) (hall : ∀ c ∈ comps, vgMapValues c ≠ []) :
    processObj_v110 comps thr [] rz obj = .ok (processObj_v100 comps thr rz obj) := by
  by_cases hm : obj.obj_type = "MESH".data
  · cases hs : searchComponentId obj.name with
    | none => rw [processObj_v110_no_id hm hs, processObj_v100_no_id hm hs]
    | some cid =>
      by_cases hlt : cid < comps.length
      · have hmem : comps.getD cid default ∈ comps := by
          rw [List.getD_eq_getElem?_getD, List.getElem?_eq_getElem hlt]
          exact List.getElem_mem hlt
        have hne : vgMapValues (comps.getD cid default) ≠ [] := hall _ hmem
        obtain ⟨x, xs, hx⟩ := List.exists_cons_of_ne_nil hne
        obtain ⟨cmax, hcmax'⟩ :
            ∃ m, listMaxInt (vgMapValues (comps.getD cid default)) = some m := by
          rw [hx]
          exact listMaxInt_cons_isSome x xs
        rw [processObj_v110_process hm hs hlt hcmax' thr [] rz,
          processObj_v100_process hm hs hlt hne thr rz]
        have hfix : fixGroupName_v110 thr []
            (vgMapValues (comps.getD cid default)) cmax =
            fixGroupName thr (vgMapValues (comps.getD cid default))
              ((listMaxInt (vgMapValues (comps.getD cid default))).getD 0) := by
          funext name
          rw [fixGroupName_v110_nil_global, hcmax']
          rfl
        rw [hfix]
      · have hge : comps.length ≤ cid := Nat.not_lt.mp hlt
        rw [processObj_v110_out_of_range hm hs hge, processObj_v100_out_of_range hm hs hge]
  · rw [processObj_v110_not_mesh hm, processObj_v100_not_mesh hm]

theorem runLoop_v110_eq_v100 {comps : List Component} (thr : Int) (rz : Bool)
    (sel : List MeshObj) (hall : ∀ c ∈ comps, vgMapValues c ≠ []) :
    runLoop_v110 comps thr [] rz sel = .ok (runLoop_v100 comps thr rz sel) := by
  induction sel with
  | nil => rfl
  | cons obj rest ih =>
    rw [runLoop_v110_cons_ok (processObj_v110_eq_v100 thr rz obj hall) rest, ih]
    rfl

theorem execute_v100_success {comps : List Component} {m : Int}
    (hne : comps ≠ []) (hm : mergedMaxVg comps = some m) (sel : List MeshObj)
    (rz : Bool) :
    execute_v100 (.doc (some comps)) sel rz =
      .finished (runLoop_v100 comps (m - 256) rz sel).2
        (runLoop_v100 comps (m - 256) rz sel).1 := by
  simp [execute_v100, hne, hm]

theorem execute_v110_success {comps : List Component} {m : Int}
    (hne : comps ≠ []) (hm : mergedMaxVg comps = some m) (sel : List MeshObj)
    (rz : Bool) :
    execute_v110 (.doc (some comps)) sel rz =
      match runLoop_v110 comps (m - 256) (globalExceptionVgs comps) rz sel with
      | .error (msg, objs) => .exception msg objs
      | .ok (objs, n) => .finished n objs := by
  simp [execute_v110, hne, hm]

/-- C1 counterexample: on the spec's own end-to-end scenario (components
`[{"vg_map":{"a":0,"b":1}}, {"vg_map":{"a":256,"b":257}}]`, object
"Component 1" with groups "257", "258", "5") both versions leave all three
groups unchanged — the threshold test `257 > 1` precedes the exception test,
so group "257" is never renamed to "Check257" as the claim states. -/
theorem C1_scenario_counterexample :
    (execute_v100
        (.doc (some [⟨some [("a".data, 0), ("b".data, 1)]⟩,
          ⟨some [("a".data, 256), ("b".data, 257)]⟩]))
        [⟨"MESH".data, "Component 1".data,
          [⟨0, "257".data⟩, ⟨1, "258".data⟩, ⟨2, "5".data⟩], []⟩] false).objects
      = [⟨"MESH".data, "Component 1".data,
          [⟨0, "257".data⟩, ⟨1, "258".data⟩, ⟨2, "5".data⟩], []⟩]
    ∧ ¬ ((execute_v100
        (.doc (some [⟨some [("a".data, 0), ("b".data, 1)]⟩,
          ⟨some [("a".data, 256), ("b".data, 257)]⟩]))
        [⟨"MESH".data, "Component 1".data,
          [⟨0, "257".data⟩, ⟨1, "258".data⟩, ⟨2, "5".data⟩], []⟩] false).objects
      = [⟨"MESH".data, "Component 1".data,
          [⟨0, "Check257".data⟩, ⟨1, "258".data⟩, ⟨2, "5".data⟩], []⟩]) := by
  constructor
  · decide
  · decide

/-- C1 (amended): for the scenario metadata (`MergedMaxVG = 257`,
`Threshold = 1`) and the object "Component 1" with groups "257", "258", "5",
Auto-Fix of either version finishes, reports one processed object and leaves
every group name unchanged: all three parsed names (257, 258, 5) exceed the
threshold 1, so the exception branch — and hence any "Check" marking — is
never reached. -/
theorem C1_scenario_all_groups_kept :
    mergedMaxVg [⟨some [("a".data, 0), ("b".data, 1)]⟩,
        ⟨some [("a".data, 256), ("b".data, 257)]⟩] = some 257
    ∧ execute_v100
        (.doc (some [⟨some [("a".data, 0), ("b".data, 1)]⟩,
          ⟨some [("a".data, 256), ("b".data, 257)]⟩]))
        [⟨"MESH".data, "Component 1".data,
          [⟨0, "257".data⟩, ⟨1, "258".data⟩, ⟨2, "5".data⟩], []⟩] false
      = .finished 1 [⟨"MESH".data, "Component 1".data,
          [⟨0, "257".data⟩, ⟨1, "258".data⟩, ⟨2, "5".data⟩], []⟩]
    ∧ execute_v110
        (.doc (some [⟨some [("a".data, 0), ("b".data, 1)]⟩,
          ⟨some [("a".data, 256), ("b".data, 257)]⟩]))
        [⟨"MESH".data, "Component 1".data,
          [⟨0, "257".data⟩, ⟨1, "258".data⟩, ⟨2, "5".data⟩], []⟩] false
      = .finished 1 [⟨"MESH".data, "Component 1".data,
          [⟨0, "257".data⟩, ⟨1, "258".data⟩, ⟨2, "5".data⟩], []⟩] := by
  refine ⟨by decide, by decide, by decide⟩

/-- C2: whenever every component carries a `vg_map` and there is at least one
value, `MergedMaxVG` as Auto-Fix computes it is exactly the maximum of all
`vg_map` values of all components, the v1.0.0 run proceeds with threshold
`MergedMaxVG - 256`, and any group whose name parses to `n > Threshold` is
left unchanged by the per-group step of either version, whatever the
exception sets. -/
theorem C2_merged_max_and_threshold (comps : List Component)
    (sel : List MeshObj) (rz : Bool)
    (hpresent : ∀ c ∈ comps, c.vg_map ≠ none)
    (hvals : allVgValuesSpec comps ≠ []) :
    ∃ m, mergedMaxVg comps = some m
      ∧ m ∈ allVgValuesSpec comps
      ∧ (∀ v ∈ allVgValuesSpec comps, v ≤ m)
      ∧ execute_v100 (.doc (some comps)) sel rz =
          .finished (runLoop_v100 comps (m - 256) rz sel).2
            (runLoop_v100 comps (m - 256) rz sel).1
      ∧ (∀ (exc : List Int) (cmax : Int) (name : PyStr) (n : Int),
          pyParseInt name = some n → n > m - 256 →
          fixGroupName (m - 256) exc cmax name = name)
      ∧ (∀ (g l : List Int) (cmax : Int) (name : PyStr) (n : Int),
          pyParseInt name = some n → n > m - 256 →
          fixGroupName_v110 (m - 256) g l cmax name = name) := by
  have hvs := mergedVgValues_eq hpresent
  obtain ⟨x, xs, hx⟩ := List.exists_cons_of_ne_nil hvals
  obtain ⟨m, hm⟩ : ∃ m, listMaxInt (allVgValuesSpec comps) = some m := by
    rw [hx]
    exact listMaxInt_cons_isSome x xs
  have hmax : mergedMaxVg comps = some m := by
    rw [mergedMaxVg, hvs, Option.some_bind, hm]
  have hne : comps ≠ [] := by
    intro hnil
    subst hnil
    exact hvals rfl
  refine ⟨m, hmax, listMaxInt_mem hm, listMaxInt_le hm,
    execute_v100_success hne hmax sel rz, ?_, ?_⟩
  · intro exc cmax name n hp hgt
    exact fixGroupName_above hp hgt cmax exc
  · intro g l cmax name n hp hgt
    exact fixGroupName_v110_above hp hgt cmax g l

/-- C2 witness: the theorem applied to a one-component document at a concrete
selection. -/
theorem C2_merged_max_and_threshold_witness :
    ∃ m, mergedMaxVg [⟨some [("a".data, 300)]⟩] = some m
      ∧ m ∈ allVgValuesSpec [⟨some [("a".data, 300)]⟩]
      ∧ (∀ v ∈ allVgValuesSpec [⟨some [("a".data, 300)]⟩], v ≤ m)
      ∧ execute_v100 (.doc (some [⟨some [("a".data, 300)]⟩])) [] false =
          .finished (runLoop_v100 [⟨some [("a".data, 300)]⟩] (m - 256) false []).2
            (runLoop_v100 [⟨some [("a".data, 300)]⟩] (m - 256) false []).1
      ∧ (∀ (exc : List Int) (cmax : Int) (name : PyStr) (n : Int),
          pyParseInt name = some n → n > m - 256 →
          fixGroupName (m - 256) exc cmax name = name)
      ∧ (∀ (g l : List Int) (cmax : Int) (name : PyStr) (n : Int),
          pyParseInt name = some n → n > m - 256 →
          fixGroupName_v110 (m - 256) g l cmax name = name) :=
  C2_merged_max_and_threshold [⟨some [("a".data, 300)]⟩] [] false
    (by decide) (by decide)

/-- C3 counterexample: the group name "0257" parses to 257 (Python `int`
accepts leading zeros), is an exception with `ComponentMaxVG = 513 ≥ 256` and
`Threshold = 257`, and both versions rename it to "Check0257" — the marker is
prefixed to the original spelling, not to the decimal of the parsed value, so
the final name is not `Check` followed by the decimal of `n`. -/
theorem C3_marker_counterexample :
    pyParseInt "0257".data = some 257
    ∧ (execute_v100 (.doc (some [⟨some [("a".data, 257), ("b".data, 513)]⟩]))
        [⟨"MESH".data, "Component 0".data, [⟨0, "0257".data⟩], []⟩] false).objects
      = [⟨"MESH".data, "Component 0".data, [⟨0, "Check0257".data⟩], []⟩]
    ∧ (execute_v110 (.doc (some [⟨some [("a".data, 257), ("b".data, 513)]⟩]))
        [⟨"MESH".data, "Component 0".data, [⟨0, "0257".data⟩], []⟩] false).objects
      = [⟨"MESH".data, "Component 0".data, [⟨0, "Check0257".data⟩], []⟩]
    ∧ "Check0257".data ≠ checkLit ++ pyIntStr 257 := by
  refine ⟨by decide, by decide, by decide, by decide⟩

/-- C3 (amended): for a group whose name parses to `n ≤ Threshold` with `n`
in the applicable exception set (local for v1.0.0, global-or-local for
v1.1.0), `ComponentMaxVG ≥ 256` makes the final name `Check` prefixed to the
original name — exactly once, since re-running the per-group step on the
marked name leaves it unchanged — which is `Check<n>` whenever the stored
name is the canonical decimal of `n`; `ComponentMaxVG < 256` leaves the name
unchanged. -/
theorem C3_exception_marking (thr cmax : Int) (lexc gexc : List Int)
    (name : PyStr) (n : Int)
    (hp : pyParseInt name = some n) (hle : ¬ n > thr) :
    (lexc.contains n = true →
      (256 ≤ cmax →
        fixGroupName thr lexc cmax name = checkLit ++ name
        ∧ fixGroupName thr lexc cmax (fixGroupName thr lexc cmax name)
            = fixGroupName thr lexc cmax name)
      ∧ (¬ 256 ≤ cmax → fixGroupName thr lexc cmax name = name))
    ∧ ((gexc.contains n = true ∨ lexc.contains n = true) →
      (256 ≤ cmax →
        fixGroupName_v110 thr gexc lexc cmax name = checkLit ++ name
        ∧ fixGroupName_v110 thr gexc lexc cmax
            (fixGroupName_v110 thr gexc lexc cmax name)
            = fixGroupName_v110 thr gexc lexc cmax name)
      ∧ (¬ 256 ≤ cmax → fixGroupName_v110 thr gexc lexc cmax name = name)) := by
  constructor
  · intro hexc
    constructor
    · intro hmax
      have h1 := fixGroupName_exception_mark hp hle hexc hmax
      refine ⟨h1, ?_⟩
      rw [h1, fixGroupName_check_append]
    · intro hmax
      exact fixGroupName_exception_keep hp hle hexc hmax
  · intro hexc
    constructor
    · intro hmax
      have h1 := fixGroupName_v110_exception_mark hp hle hexc hmax
      refine ⟨h1, ?_⟩
      rw [h1, fixGroupName_v110_check_append]
    · intro hmax
      exact fixGroupName_v110_exception_keep hp hle hexc hmax

/-- C3 witness: the amended theorem applied to the exception group "257" with
threshold 257 and component maximum 513. -/
theorem C3_exception_marking_witness :
    (([257, 513] : List Int).contains 257 = true →
      (256 ≤ (513 : Int) →
        fixGroupName 257 [257, 513] 513 "257".data = checkLit ++ "257".data
        ∧ fixGroupName 257 [257, 513] 513 (fixGroupName 257 [257, 513] 513 "257".data)
            = fixGroupName 257 [257, 513] 513 "257".data)
      ∧ (¬ 256 ≤ (513 : Int) → fixGroupName 257 [257, 513] 513 "257".data = "257".data))
    ∧ ((([] : List Int).contains 257 = true ∨ ([257, 513] : List Int).contains 257 = true) →
      (256 ≤ (513 : Int) →
        fixGroupName_v110 257 [] [257, 513] 513 "257".data = checkLit ++ "257".data
        ∧ fixGroupName_v110 257 [] [257, 513] 513
            (fixGroupName_v110 257 [] [257, 513] 513 "257".data)
            = fixGroupName_v110 257 [] [257, 513] 513 "257".data)
      ∧ (¬ 256 ≤ (513 : Int) → fixGroupName_v110 257 [] [257, 513] 513 "257".data = "257".data)) :=
  C3_exception_marking 257 513 [257, 513] [] ("257".data) 257 (by decide) (by decide)

theorem renameGroups_comp (f g : PyStr → PyStr) (obj : MeshObj) :
    renameGroups f (renameGroups g obj) = renameGroups (fun s => f (g s)) obj := by
  simp [renameGroups, List.map_map, Function.comp]

theorem execute_removeCheck_pass_idem (sel : List MeshObj) :
    (execute_removeCheck (execute_removeCheck sel).1).1 = (execute_removeCheck sel).1 := by
  unfold execute_removeCheck
  rw [List.map_map]
  apply List.map_congr_left
  intro obj _
  simp only [Function.comp_apply]
  by_cases hm : obj.obj_type = "MESH".data
  · rw [if_neg (not_not_intro hm)]
    have hm2 : (renameGroups removeCheckName obj).obj_type = "MESH".data := hm
    rw [if_neg (not_not_intro hm2)]
    rw [renameGroups_comp]
    have hfun : (fun s => removeCheckName (removeCheckName s)) = removeCheckName := by
      funext s
      exact removeCheckName_idem s
    rw [hfun]
  · rw [if_pos hm, if_pos hm]

/-- C4 counterexample: the group name "+5" parses to 5 (Python `int` accepts
a sign), the marking step turns it into "Check+5", and the remove-check pass
leaves "Check+5" unchanged because the anchored pattern `^Check(\d+)$` does
not match a sign — so the pass is not an exact left inverse of the marking
step. -/
theorem C4_left_inverse_counterexample :
    pyParseInt "+5".data = some 5
    ∧ fixGroupName 300 [5, 300] 300 "+5".data = "Check+5".data
    ∧ removeCheckName "Check+5".data = "Check+5".data
    ∧ "Check+5".data ≠ "+5".data := by
  refine ⟨by decide, by decide, by decide, by decide⟩

/-- C4 (amended): a name matches the anchored pattern exactly when it is
`Check<digits>`, optionally ending in one trailing newline that Python's `$`
tolerates; the pass renames every matching name to the captured digits alone
(so "Check5\n" becomes "5"), leaves every non-matching name unchanged, is
idempotent both per name and over a whole selection, and is a left inverse of
the Check marking step of either Auto-Fix version for every group whose
stored name consists only of digits (a marked name with a sign or whitespace,
though parseable as an integer, is not restored exactly). -/
theorem C4_remove_check_pass (cs ds es name : PyStr) (thr cmax : Int)
    (lexc gexc : List Int) (n : Int) (sel : List MeshObj) :
    (ds.all Char.isDigit = true → ds ≠ [] →
        removeCheckName (checkLit ++ ds) = ds)
    ∧ (ds.all Char.isDigit = true → ds ≠ [] →
        removeCheckName (checkLit ++ (ds ++ ['\n'])) = ds)
    ∧ (reCheckMatch cs = some es ↔
        (es.all Char.isDigit = true ∧ es ≠ []
          ∧ (cs = checkLit ++ es ∨ cs = checkLit ++ es ++ ['\n'])))
    ∧ (reCheckMatch cs = none → removeCheckName cs = cs)
    ∧ removeCheckName (removeCheckName cs) = removeCheckName cs
    ∧ (execute_removeCheck (execute_removeCheck sel).1).1 = (execute_removeCheck sel).1
    ∧ (pyParseInt name = some n → ¬ n > thr → lexc.contains n = true →
        256 ≤ cmax → name.all Char.isDigit = true → name ≠ [] →
        removeCheckName (fixGroupName thr lexc cmax name) = name)
    ∧ (pyParseInt name = some n → ¬ n > thr →
        (gexc.contains n = true ∨ lexc.contains n = true) →
        256 ≤ cmax → name.all Char.isDigit = true → name ≠ [] →
        removeCheckName (fixGroupName_v110 thr gexc lexc cmax name) = name) := by
  refine ⟨fun h1 h2 => removeCheckName_append h1 h2,
    fun h1 h2 => removeCheckName_append_newline h1 h2,
    reCheckMatch_iff cs es,
    fun h => removeCheckName_no_match h,
    removeCheckName_idem cs,
    execute_removeCheck_pass_idem sel, ?_, ?_⟩
  · intro hp hle hexc hmax hdig hne
    rw [fixGroupName_exception_mark hp hle hexc hmax]
    exact removeCheckName_append hdig hne
  · intro hp hle hexc hmax hdig hne
    rw [fixGroupName_v110_exception_mark hp hle hexc hmax]
    exact removeCheckName_append hdig hne

/-- C4 witness: the pass restores "257" after the marking step turned it into
"Check257", and strips the marked newline name "Check5\n" to "5". -/
theorem C4_remove_check_pass_witness :
    removeCheckName (fixGroupName 257 [257, 513] 513 "257".data) = "257".data
    ∧ removeCheckName "Check5\n".data = "5".data :=
  ⟨(C4_remove_check_pass [] ("257".data) [] ("257".data) 257 513 [257, 513] [] 257
      []).2.2.2.2.2.2.1
      (by decide) (by decide) (by decide) (by decide) (by decide) (by decide),
    (C4_remove_check_pass [] ("5".data) [] ("257".data) 257 513 [257, 513] [] 257
      []).2.1 (by decide) (by decide)⟩

/-- C5 counterexample: in v1.1.0 a mesh object whose component has an empty
local exception set is not skipped — `max(local_vg_map)` raises an uncaught
`ValueError`, the whole run stops with both objects untouched, although
processing the second object alone would have renamed its group "0" to "256".
The issue is fatal there, not a logged skip with the run continuing. -/
theorem C5_empty_exception_set_fatal_counterexample :
    execute_v110 (.doc (some [⟨some [("a".data, 300)]⟩, ⟨some []⟩]))
      [⟨"MESH".data, "Component 1".data, [⟨0, "0".data⟩], []⟩,
       ⟨"MESH".data, "Component 0".data, [⟨0, "0".data⟩], []⟩] false
      = .exception ("ValueError: max() arg is an empty sequence".data)
          [⟨"MESH".data, "Component 1".data, [⟨0, "0".data⟩], []⟩,
           ⟨"MESH".data, "Component 0".data, [⟨0, "0".data⟩], []⟩]
    ∧ processObj_v110 [⟨some [("a".data, 300)]⟩, ⟨some []⟩] 44 [] false
        ⟨"MESH".data, "Component 0".data, [⟨0, "0".data⟩], []⟩
      = .ok (⟨"MESH".data, "Component 0".data, [⟨0, "256".data⟩], []⟩, 1) := by
  refine ⟨by decide, by decide⟩

/-- C5 (amended): a selected mesh object with no component id in its name or
an out-of-range id is skipped without mutation by both versions, and the run
continues over the remaining objects; an empty (or absent) local exception
set is such a non-fatal skip only in v1.0.0 — v1.1.0 raises at that object,
aborting the rest of the run. -/
theorem C5_per_object_skips (comps : List Component) (thr : Int)
    (g : List Int) (rz : Bool) (obj : MeshObj) (rest : List MeshObj) (cid : Nat)
    (hm : obj.obj_type = "MESH".data) :
    (searchComponentId obj.name = none →
      processObj_v100 comps thr rz obj = (obj, 0)
      ∧ processObj_v110 comps thr g rz obj = .ok (obj, 0))
    ∧ (searchComponentId obj.name = some cid → comps.length ≤ cid →
      processObj_v100 comps thr rz obj = (obj, 0)
      ∧ processObj_v110 comps thr g rz obj = .ok (obj, 0))
    ∧ (searchComponentId obj.name = some cid → cid < comps.length →
      vgMapValues (comps.getD cid default) = [] →
      processObj_v100 comps thr rz obj = (obj, 0)
      ∧ processObj_v110 comps thr g rz obj =
          .error ("ValueError: max() arg is an empty sequence".data))
    ∧ (processObj_v100 comps thr rz obj = (obj, 0) →
      runLoop_v100 comps thr rz (obj :: rest) =
        (obj :: (runLoop_v100 comps thr rz rest).1,
         (runLoop_v100 comps thr rz rest).2))
    ∧ (processObj_v110 comps thr g rz obj = .ok (obj, 0) →
      runLoop_v110 comps thr g rz (obj :: rest) =
        match runLoop_v110 comps thr g rz rest with
        | .error (msg, rest1) => .error (msg, obj :: rest1)
        | .ok (rest1, n) => .ok (obj :: rest1, n))
    ∧ (processObj_v110 comps thr g rz obj =
          .error ("ValueError: max() arg is an empty sequence".data) →
      runLoop_v110 comps thr g rz (obj :: rest) =
        .error ("ValueError: max() arg is an empty sequence".data, obj :: rest)) := by
  refine ⟨?_, ?_, ?_, ?_, ?_, ?_⟩
  · intro hs
    exact ⟨processObj_v100_no_id hm hs comps thr rz,
      processObj_v110_no_id hm hs comps thr g rz⟩
  · intro hs hge
    exact ⟨processObj_v100_out_of_range hm hs hge thr rz,
      processObj_v110_out_of_range hm hs hge thr g rz⟩
  · intro hs hlt hempty
    exact ⟨processObj_v100_empty_map hm hs hlt hempty thr rz,
      processObj_v110_empty_map hm hs hlt hempty thr g rz⟩
  · intro hp
    rw [runLoop_v100_cons, hp]
    simp
  · intro hp
    rw [runLoop_v110_cons_ok hp rest]
    cases hr : runLoop_v110 comps thr g rz rest with
    | error e => cases e; rfl
    | ok p => cases p with | mk rest1 n => simp
  · intro hp
    exact runLoop_v110_cons_error hp rest

/-- C5 witness: an object whose name holds no component id is skipped and the
(one-object) run continues to its end. -/
theorem C5_per_object_skips_witness :
    processObj_v100 [] 0 false ⟨"MESH".data, "Mesh A".data, [], []⟩
      = (⟨"MESH".data, "Mesh A".data, [], []⟩, 0) :=
  (((C5_per_object_skips [] 0 [] false ⟨"MESH".data, "Mesh A".data, [], []⟩ [] 0
      rfl).1) (by decide)).1

/-- C6: whenever metadata loading fails — path unset, file missing,
unparseable JSON, missing/empty `components`, or `MergedMaxVG` not
computable — both versions abort before the object loop: the invocation does
not finish and every selected object is returned exactly as it came in, so no
vertex-group name is changed and no group is removed. -/
theorem C6_load_failure_aborts_without_mutation (input : MetadataInput)
    (sel : List MeshObj) (rz : Bool) (h : loadFailsSpec input) :
    (execute_v100 input sel rz).objects = sel
    ∧ (execute_v100 input sel rz).aborted = true
    ∧ (execute_v110 input sel rz).objects = sel
    ∧ (execute_v110 input sel rz).aborted = true := by
  cases input with
  | pathNotSet => exact ⟨rfl, rfl, rfl, rfl⟩
  | fileMissing => exact ⟨rfl, rfl, rfl, rfl⟩
  | badJson => exact ⟨rfl, rfl, rfl, rfl⟩
  | doc components? =>
    cases components? with
    | none => exact ⟨rfl, rfl, rfl, rfl⟩
    | some comps =>
      simp only [loadFailsSpec] at h
      by_cases hnil : comps = []
      · subst hnil
        exact ⟨rfl, rfl, rfl, rfl⟩
      · have hnone : mergedMaxVg comps = none := by
          rcases h with h | h | h
          · exact absurd h hnil
          · rw [mergedMaxVg, mergedVgValues_none h]
            rfl
          · by_cases hmiss : ∃ c ∈ comps, c.vg_map = none
            · rw [mergedMaxVg, mergedVgValues_none hmiss]
              rfl
            · push_neg at hmiss
              rw [mergedMaxVg, mergedVgValues_eq hmiss, Option.some_bind, h]
              rfl
        refine ⟨?_, ?_, ?_, ?_⟩ <;>
          simp [execute_v100, execute_v110, hnil, hnone,
            RunOutcome.objects, RunOutcome.aborted]

/-- C6 witness: a malformed-JSON load aborts the run with the selection
untouched. -/
theorem C6_load_failure_witness :
    (execute_v100 .badJson [⟨"MESH".data, "Component 0".data, [⟨0, "0".data⟩], []⟩] true).objects
      = [⟨"MESH".data, "Component 0".data, [⟨0, "0".data⟩], []⟩]
    ∧ (execute_v100 .badJson [⟨"MESH".data, "Component 0".data, [⟨0, "0".data⟩], []⟩] true).aborted = true
    ∧ (execute_v110 .badJson [⟨"MESH".data, "Component 0".data, [⟨0, "0".data⟩], []⟩] true).objects
      = [⟨"MESH".data, "Component 0".data, [⟨0, "0".data⟩], []⟩]
    ∧ (execute_v110 .badJson [⟨"MESH".data, "Component 0".data, [⟨0, "0".data⟩], []⟩] true).aborted = true :=
  C6_load_failure_aborts_without_mutation .badJson
    [⟨"MESH".data, "Component 0".data, [⟨0, "0".data⟩], []⟩] true trivial

/-- C7: a group whose name parses to `n ≤ Threshold` outside the applicable
exception sets is renamed to the decimal string of `n + 256` by the per-group
step of either version, and a group whose name does not parse as a base-10
integer is never touched. -/
theorem C7_offset_and_non_numeric_skip (thr cmax : Int) (lexc gexc : List Int)
    (name : PyStr) (n : Int) :
    (pyParseInt name = none →
      fixGroupName thr lexc cmax name = name
      ∧ fixGroupName_v110 thr gexc lexc cmax name = name)
    ∧ (pyParseInt name = some n → ¬ n > thr → lexc.contains n = false →
      fixGroupName thr lexc cmax name = pyIntStr (n + 256))
    ∧ (pyParseInt name = some n → ¬ n > thr → gexc.contains n = false →
      lexc.contains n = false →
      fixGroupName_v110 thr gexc lexc cmax name = pyIntStr (n + 256)) := by
  refine ⟨?_, ?_, ?_⟩
  · intro hp
    exact ⟨fixGroupName_parse_none hp thr cmax lexc,
      fixGroupName_v110_parse_none hp thr cmax gexc lexc⟩
  · intro hp hle hexc
    exact fixGroupName_offset hp hle hexc cmax
  · intro hp hle hg hl
    exact fixGroupName_v110_offset hp hle hg hl cmax

/-- C7 witness: "5" with threshold 100 is remapped to "261"; "Bone" is left
alone. -/
theorem C7_offset_witness :
    fixGroupName 100 [7] 300 "5".data = pyIntStr (5 + 256)
    ∧ fixGroupName 100 [7] 300 "Bone".data = "Bone".data :=
  ⟨(C7_offset_and_non_numeric_skip 100 300 [7] [] ("5".data) 5).2.1
      (by decide) (by decide) (by decide),
    ((C7_offset_and_non_numeric_skip 100 300 [7] [] ("Bone".data) 0).1
      (by decide)).1⟩

/-- C8: the zero-weight sweep keeps exactly the groups some vertex lists:
the result is the original list filtered by membership, a group survives if
and only if a vertex entry names its index (whatever that entry's weight),
and the two-phase collect-then-remove of the source equals that single
filter, with the object's name and vertices untouched. -/
theorem C8_zero_weight_sweep (obj : MeshObj) :
    ((remove_zero_weight_vgroups obj).vertex_groups
        = obj.vertex_groups.filter (fun vg => vgUsed obj.vertices vg.index))
    ∧ (∀ vg : VGroup, vg ∈ (remove_zero_weight_vgroups obj).vertex_groups ↔
        (vg ∈ obj.vertex_groups
          ∧ ∃ v ∈ obj.vertices, ∃ e ∈ v.groups, e.group = vg.index))
    ∧ (remove_zero_weight_vgroups obj).name = obj.name
    ∧ (remove_zero_weight_vgroups obj).vertices = obj.vertices := by
  have h := remove_zero_weight_vgroups_eq_filter obj
  refine ⟨by rw [h], ?_, by rw [h], by rw [h]⟩
  intro vg
  rw [h]
  simp only [List.mem_filter]
  rw [vgUsed_iff]

/-- C9: a name that parses as a base-10 integer can never start with "Check"
(its first non-stripped character would have to be a digit, sign or
whitespace), so every group reaching the exception branch fails the
`startswith("Check")` guard and the "already has Check, kept" arm is
unreachable — the marking always fires there; double prefixing is instead
prevented by the non-numeric skip, which classifies any name of the form
`Check...` as non-numeric and leaves it unchanged in both versions. -/
theorem C9_check_guard_unreachable (thr cmax : Int) (exc gexc lexc : List Int)
    (name ds : PyStr) (n : Int) :
    (pyParseInt name = some n → pyStartswith checkLit name = false)
    ∧ (pyParseInt name = some n → ¬ n > thr → exc.contains n = true →
        256 ≤ cmax → fixGroupName thr exc cmax name = checkLit ++ name)
    ∧ (pyParseInt name = some n → ¬ n > thr →
        (gexc.contains n = true ∨ lexc.contains n = true) → 256 ≤ cmax →
        fixGroupName_v110 thr gexc lexc cmax name = checkLit ++ name)
    ∧ pyParseInt (checkLit ++ ds) = none
    ∧ fixGroupName thr exc cmax (checkLit ++ ds) = checkLit ++ ds
    ∧ fixGroupName_v110 thr gexc lexc cmax (checkLit ++ ds) = checkLit ++ ds := by
  refine ⟨fun hp => pyParseInt_some_not_check hp, ?_, ?_,
    pyParseInt_check_append ds,
    fixGroupName_check_append thr cmax exc ds,
    fixGroupName_v110_check_append thr cmax gexc lexc ds⟩
  · intro hp hle hexc hmax
    exact fixGroupName_exception_mark hp hle hexc hmax
  · intro hp hle hexc hmax
    exact fixGroupName_v110_exception_mark hp hle hexc hmax

/-- C9 witness: "257" parses, does not start with "Check", and the exception
branch marks it; "Check257" is non-numeric and survives a second pass
unchanged. -/
theorem C9_check_guard_witness :
    pyStartswith checkLit "257".data = false
    ∧ fixGroupName 257 [257, 513] 513 "257".data = checkLit ++ "257".data
    ∧ pyParseInt (checkLit ++ "257".data) = none :=
  ⟨(C9_check_guard_unreachable 257 513 [257, 513] [] [257, 513]
      ("257".data) ("257".data) 257).1 (by decide),
    (C9_check_guard_unreachable 257 513 [257, 513] [] [257, 513]
      ("257".data) ("257".data) 257).2.1 (by decide) (by decide) (by decide) (by decide),
    (C9_check_guard_unreachable 257 513 [257, 513] [] [257, 513]
      ("257".data) ("257".data) 257).2.2.2.1⟩

/-- C10: when the components list has at most 3 entries, each with a
non-empty `vg_map`, v1.1.0's global exception set is empty and both versions
produce exactly the same final objects (hence identical final vertex-group
names) for every selection and remove-zero flag. -/
theorem C10_versions_equivalent (comps : List Component) (sel : List MeshObj)
    (rz : Bool) (hlen : comps.length ≤ 3)
    (hall : ∀ c ∈ comps, vgMapValues c ≠ []) :
    globalExceptionVgs comps = []
    ∧ (execute_v100 (.doc (some comps)) sel rz).objects
        = (execute_v110 (.doc (some comps)) sel rz).objects := by
  have hg : globalExceptionVgs comps = [] := by
    unfold globalExceptionVgs
    rw [List.drop_eq_nil_of_le hlen]
    rfl
  refine ⟨hg, ?_⟩
  by_cases hne : comps = []
  · subst hne
    rfl
  · have hpresent : ∀ c ∈ comps, c.vg_map ≠ none := by
      intro c hc hnone
      exact hall c hc (by simp [vgMapValues, hnone])
    have hvalsne : allVgValuesSpec comps ≠ [] := by
      obtain ⟨c, cs, rfl⟩ := List.exists_cons_of_ne_nil hne
      have h1 := hall c (List.mem_cons_self _ _)
      simp only [allVgValuesSpec, List.map_cons, List.flatten_cons]
      intro hnil
      exact h1 (List.append_eq_nil.mp hnil).1
    obtain ⟨m, hm⟩ : ∃ m, mergedMaxVg comps = some m := by
      rw [mergedMaxVg, mergedVgValues_eq hpresent, Option.some_bind]
      obtain ⟨x, xs, hx⟩ := List.exists_cons_of_ne_nil hvalsne
      rw [hx]
      exact listMaxInt_cons_isSome x xs
    rw [execute_v100_success hne hm sel rz, execute_v110_success hne hm sel rz,
      hg, runLoop_v110_eq_v100 (m - 256) rz sel hall]

/-- C10 witness: a single-component document processed over a one-object
selection gives the same result in both versions. -/
theorem C10_versions_equivalent_witness :
    globalExceptionVgs [⟨some [("a".data, 300)]⟩] = []
    ∧ (execute_v100 (.doc (some [⟨some [("a".data, 300)]⟩]))
        [⟨"MESH".data, "Component 0".data, [⟨0, "0".data⟩], []⟩] false).objects
      = (execute_v110 (.doc (some [⟨some [("a".data, 300)]⟩]))
        [⟨"MESH".data, "Component 0".data, [⟨0, "0".data⟩], []⟩] false).objects :=
  C10_versions_equivalent [⟨some [("a".data, 300)]⟩]
    [⟨"MESH".data, "Component 0".data, [⟨0, "0".data⟩], []⟩] false
    (by decide) (by decide)
